import Mathlib

/-!
Verification development for the LEDMatrix countdown plugin
(`src/manager.py`, class `CountdownPlugin`).

The Python source is shallowly embedded below.  Python dicts become
structures or association lists, Python `date` objects become a `PDate`
structure with the proleptic-Gregorian ordinal (`date.toordinal`), and the
lenient `datetime.strptime(s, '%Y-%m-%d')` parser is modelled faithfully
(four-digit year, one- or two-digit month and day, full-string match,
calendar validation as performed by the `datetime` constructor).
Python floats are idealised as exact rationals (IEEE-754 rounding and
overflow of finite values are not modelled); float infinities and NaN are
modelled explicitly because `int()` treats them specially.
-/

/-! ## Calendar dates (model of Python `datetime.date`) -/

/-- A calendar date, as produced by `datetime.strptime(...).date()`. -/
structure PDate where
  year : Nat
  month : Nat
  day : Nat
deriving DecidableEq, Repr

/-- Gregorian leap-year rule used by Python's `datetime`. -/
def isLeap (y : Nat) : Bool :=
  (y % 4 == 0 && y % 100 != 0) || (y % 400 == 0)

/-- Number of days in a month (0 for an invalid month index). -/
def daysInMonth (y m : Nat) : Nat :=
  match m with
  | 1 => 31
  | 2 => if isLeap y then 29 else 28
  | 3 => 31
  | 4 => 30
  | 5 => 31
  | 6 => 30
  | 7 => 31
  | 8 => 31
  | 9 => 30
  | 10 => 31
  | 11 => 30
  | 12 => 31
  | _ => 0

/-- Validity check performed by the `datetime.date` constructor
(`MINYEAR = 1`, `MAXYEAR = 9999`). -/
def validDate (d : PDate) : Bool :=
  1 ≤ d.year && d.year ≤ 9999 && 1 ≤ d.month && d.month ≤ 12 &&
    1 ≤ d.day && d.day ≤ daysInMonth d.year d.month

/-- Days in all years strictly before year `y` (as in CPython's
`_days_before_year`). -/
def daysBeforeYear (y : Nat) : Nat :=
  let p := y - 1
  p * 365 + p / 4 - p / 100 + p / 400

/-- Days in year `y` strictly before month `m` (as in CPython's
`_days_before_month`). -/
def daysBeforeMonth (y m : Nat) : Nat :=
  (match m with
   | 1 => 0
   | 2 => 31
   | 3 => 59
   | 4 => 90
   | 5 => 120
   | 6 => 151
   | 7 => 181
   | 8 => 212
   | 9 => 243
   | 10 => 273
   | 11 => 304
   | 12 => 334
   | _ => 0) + (if 2 < m && isLeap y then 1 else 0)

/-- Python `date.toordinal()`: day 1 is 0001-01-01. -/
def toOrdinal (d : PDate) : Nat :=
  daysBeforeYear d.year + daysBeforeMonth d.year d.month + d.day

/-! ## Model of `datetime.strptime(s, '%Y-%m-%d')`

CPython's `_strptime` compiles the format to the regular expression
`(?P<Y>\d\d\d\d)-(?P<m>1[0-2]|0[1-9]|[1-9])-(?P<d>3[01]|[12]\d|0[1-9]|[1-9])`
and requires the whole input to be consumed; the parsed numbers are then
validated by the `datetime` constructor.  Because the separators are `-`
and no alternative of the month/day groups may contain `-`, matching this
regex is equivalent to splitting the input on `-` into exactly three
components and checking each component's shape.  Only ASCII digits are
modelled. -/

/-- Numeric value of an ASCII digit character. -/
def digitVal (c : Char) : Nat := c.toNat - '0'.toNat

/-- Value of a string of ASCII digits. -/
def digitsVal (l : List Char) : Nat :=
  l.foldl (fun a c => a * 10 + digitVal c) 0

/-- Split a character list at every `-` (so `n` dashes yield `n + 1`
components, empty components included). -/
def splitDash : List Char → List (List Char)
  | [] => [[]]
  | c :: r =>
    if c = '-' then [] :: splitDash r
    else
      match splitDash r with
      | h :: t => (c :: h) :: t
      | [] => [[c]]

/-- `%Y` component: exactly four digits. -/
def yearOk (l : List Char) : Bool :=
  l.length == 4 && l.all Char.isDigit

/-- `%m` component: `1[0-2]|0[1-9]|[1-9]` matching the whole component. -/
def monthOk (l : List Char) : Bool :=
  match l with
  | [c] => c.isDigit && c != '0'
  | [c1, c2] =>
    (c1 == '0' && c2.isDigit && c2 != '0') ||
    (c1 == '1' && (c2 == '0' || c2 == '1' || c2 == '2'))
  | _ => false

/-- `%d` component: `3[01]|[12]\d|0[1-9]|[1-9]` matching the whole
component. -/
def dayOk (l : List Char) : Bool :=
  match l with
  | [c] => c.isDigit && c != '0'
  | [c1, c2] =>
    (c1 == '0' && c2.isDigit && c2 != '0') ||
    ((c1 == '1' || c1 == '2') && c2.isDigit) ||
    (c1 == '3' && (c2 == '0' || c2 == '1'))
  | _ => false

/-- Model of `datetime.strptime(s, '%Y-%m-%d').date()`: `none` means the
call raises `ValueError` (caught by `_calculate_time_remaining`). -/
def parseDateStr (s : String) : Option PDate :=
  match splitDash s.toList with
  | [ys, ms, ds] =>
    if yearOk ys && monthOk ms && dayOk ds then
      let d : PDate := ⟨digitsVal ys, digitsVal ms, digitsVal ds⟩
      if validDate d then some d else none
    else none
  | _ => none

/-! ## Countdown calculation (`_calculate_time_remaining`, lines 266-334) -/

/-- Dictionary returned by `_calculate_time_remaining`. -/
structure CountdownResult where
  days : Nat
  hours : Nat
  minutes : Nat
  is_expired : Bool
  is_today : Bool
  text : String
deriving DecidableEq, Repr

/-- The fallback result built in the `except` clause (lines 327-334). -/
def errorResult : CountdownResult :=
  ⟨0, 0, 0, false, false, "Error"⟩

/-- The four-way case split on `delta.days` (lines 284-323); `delta` is
the whole-day difference `target_date - today`. -/
def calcFromDelta (delta : Int) : CountdownResult :=
  if delta < 0 then
    ⟨delta.natAbs, 0, 0, true, false, toString delta.natAbs ++ "d ago"⟩
  else if delta = 0 then
    ⟨0, 0, 0, false, true, "TODAY!"⟩
  else if delta = 1 then
    ⟨1, 0, 0, false, false, "1 Day"⟩
  else
    ⟨delta.toNat, 0, 0, false, false, toString delta ++ " Days"⟩

/-- `_calculate_time_remaining(target_date_str)`, with `date.today()`
passed explicitly.  A parse failure is the caught exception path. -/
def calculate_time_remaining (s : String) (today : PDate) : CountdownResult :=
  match parseDateStr s with
  | some d => calcFromDelta ((toOrdinal d : Int) - (toOrdinal today : Int))
  | none => errorResult

/-! ## Color parsing (`_parse_color`, lines 97-118)

Elements of the configured color triple are Python values.  A Python
float is modelled as an exact rational, or an infinity, or NaN; a numeric
string is converted with `float(str)` and then `int(...)`.  `int()` on a
finite float truncates toward zero, raises `ValueError` on NaN (caught by
the handler at line 113) and raises `OverflowError` on an infinity, which
is *not* among the caught exception classes `(ValueError, TypeError)`. -/

/-- A Python float value (finite values idealised as exact rationals). -/
inductive PyF where
  | finite (q : ℚ)
  | inf (neg : Bool)
  | nan
deriving DecidableEq, Repr

/-- A candidate element of the color sequence. -/
inductive PyElem where
  | int (n : Int)
  | float (f : PyF)
  | str (s : String)
  | other
deriving Repr

/-- A candidate color configuration value: an ordered sequence (Python
`list` or `tuple`) of elements, or any other value. -/
inductive PyVal where
  | seq (xs : List PyElem)
  | nonseq
deriving Repr

/-- Python `int()` applied to a finite float: truncation toward zero. -/
def truncQ (q : ℚ) : Int :=
  if 0 ≤ q then ⌊q⌋ else ⌈q⌉

/-- Sign prefix of a float literal. -/
def stripSign : List Char → Bool × List Char
  | '+' :: r => (false, r)
  | '-' :: r => (true, r)
  | r => (false, r)

/-- Leading run of ASCII digits and the remainder. -/
def spanDigits (l : List Char) : List Char × List Char :=
  (l.takeWhile Char.isDigit, l.dropWhile Char.isDigit)

/-- Optional exponent suffix of a float literal; `mant` is the signed
mantissa value. -/
def parseExpSuffix (mant : ℚ) : List Char → Option PyF
  | [] => some (PyF.finite mant)
  | 'e' :: r =>
    let (eneg, r1) := stripSign r
    let (ed, r2) := spanDigits r1
    if ed ≠ [] ∧ r2 = [] then
      let e : Int := if eneg then -(digitsVal ed : Int) else (digitsVal ed : Int)
      some (PyF.finite (mant * (10 : ℚ) ^ e))
    else none
  | _ => none

/-- Model of Python `float(str)`: strips surrounding whitespace, is
case-insensitive, and accepts an optional sign followed by either
`inf`/`infinity`/`nan` or a decimal literal with optional fraction and
exponent.  Finite values are exact rationals (double rounding/overflow
and `_` digit separators are not modelled); `none` models `ValueError`. -/
def pyFloatOfString (s : String) : Option PyF :=
  let (neg, r) := stripSign (s.trim.toList.map Char.toLower)
  if r = "inf".toList ∨ r = "infinity".toList then some (PyF.inf neg)
  else if r = "nan".toList then some PyF.nan
  else
    let (ip, r1) := spanDigits r
    match r1 with
    | '.' :: r2 =>
      let (fp, r3) := spanDigits r2
      if ip = [] ∧ fp = [] then none
      else
        let m : ℚ := (digitsVal ip : ℚ) + (digitsVal fp : ℚ) / (10 : ℚ) ^ fp.length
        parseExpSuffix (if neg then -m else m) r3
    | _ =>
      if ip = [] then none
      else parseExpSuffix (if neg then -(digitsVal ip : ℚ) else (digitsVal ip : ℚ)) r1

/-- Outcome of converting one element inside the loop body
(lines 102-111). -/
inductive ConvRes where
  | val (n : Int)
  | bad
  | overflow
deriving DecidableEq, Repr

/-- Python `int()` applied to a float value. -/
def intOfPyF : PyF → ConvRes
  | PyF.finite q => ConvRes.val (truncQ q)
  | PyF.inf _ => ConvRes.overflow
  | PyF.nan => ConvRes.bad

/-- The type dispatch of lines 103-108: strings go through
`int(float(c))`, floats through `int(c)`, ints pass unchanged, anything
else raises `ValueError` (caught). -/
def convElem : PyElem → ConvRes
  | PyElem.str s =>
    match pyFloatOfString s with
    | some f => intOfPyF f
    | none => ConvRes.bad
  | PyElem.float f => intOfPyF f
  | PyElem.int n => ConvRes.val n
  | PyElem.other => ConvRes.bad

/-- Conversion followed by the range check of lines 109-110. -/
def convRange (e : PyElem) : ConvRes :=
  match convElem e with
  | ConvRes.val n => if 0 ≤ n ∧ n ≤ 255 then ConvRes.val n else ConvRes.bad
  | r => r

/-- Result of `_parse_color`: either a returned triple or an uncaught
`OverflowError` escaping to the caller. -/
inductive ColorOut where
  | ok (c : Int × Int × Int)
  | overflowError
deriving DecidableEq, Repr

/-- `_parse_color(color_value, default)` (lines 97-118): a 3-element
list/tuple is converted element by element, left to right, with the first
caught failure returning the default; any other container shape returns
the default directly. -/
def parse_color (v : PyVal) (dflt : Int × Int × Int) : ColorOut :=
  match v with
  | PyVal.seq [x, y, z] =>
    match convRange x with
    | ConvRes.overflow => ColorOut.overflowError
    | ConvRes.bad => ColorOut.ok dflt
    | ConvRes.val a =>
      match convRange y with
      | ConvRes.overflow => ColorOut.overflowError
      | ConvRes.bad => ColorOut.ok dflt
      | ConvRes.val b =>
        match convRange z with
        | ConvRes.overflow => ColorOut.overflowError
        | ConvRes.bad => ColorOut.ok dflt
        | ConvRes.val c => ColorOut.ok (a, b, c)
  | _ => ColorOut.ok dflt

/-- Per-element conversion as described by the (amended) specification:
an integer, truncated-toward-zero float, or truncated numeric string that
lands in `[0,255]` is good; an infinite float (or string denoting an
infinity) triggers an overflow; everything else is rejected. -/
def elemConvSpec : PyElem → ConvRes
  | PyElem.int n => if 0 ≤ n ∧ n ≤ 255 then ConvRes.val n else ConvRes.bad
  | PyElem.float (PyF.finite q) =>
    if 0 ≤ truncQ q ∧ truncQ q ≤ 255 then ConvRes.val (truncQ q) else ConvRes.bad
  | PyElem.float (PyF.inf _) => ConvRes.overflow
  | PyElem.float PyF.nan => ConvRes.bad
  | PyElem.str s =>
    match pyFloatOfString s with
    | some (PyF.finite q) =>
      if 0 ≤ truncQ q ∧ truncQ q ≤ 255 then ConvRes.val (truncQ q) else ConvRes.bad
    | some (PyF.inf _) => ConvRes.overflow
    | some PyF.nan => ConvRes.bad
    | none => ConvRes.bad
  | PyElem.other => ConvRes.bad

/-- Specification-side description of `_parse_color` (amended claim):
anything other than a 3-element sequence yields the default; otherwise
the elements are classified independently and the first non-good element
decides the outcome (overflow escapes, any other failure yields the
default); if all three are good the converted triple is returned. -/
def specParseColor (v : PyVal) (dflt : Int × Int × Int) : ColorOut :=
  match v with
  | PyVal.seq [x, y, z] =>
    match elemConvSpec x, elemConvSpec y, elemConvSpec z with
    | ConvRes.val a, ConvRes.val b, ConvRes.val c => ColorOut.ok (a, b, c)
    | ConvRes.overflow, _, _ => ColorOut.overflowError
    | ConvRes.bad, _, _ => ColorOut.ok dflt
    | ConvRes.val _, ConvRes.overflow, _ => ColorOut.overflowError
    | ConvRes.val _, ConvRes.bad, _ => ColorOut.ok dflt
    | ConvRes.val _, ConvRes.val _, ConvRes.overflow => ColorOut.overflowError
    | ConvRes.val _, ConvRes.val _, ConvRes.bad => ColorOut.ok dflt
  | _ => ColorOut.ok dflt

/-! ## Fit-aspect size (`_calculate_fit_size`, lines 251-264)

Python's float division and `int()` cast are idealised as exact rational
division and floor (the operands are non-negative, where `int()` agrees
with floor). -/

/-- `_calculate_fit_size(image_size, display_size)`. -/
def calculate_fit_size (image_size display_size : Nat × Nat) : Int × Int :=
  let scale : ℚ :=
    min ((display_size.1 : ℚ) / (image_size.1 : ℚ))
        ((display_size.2 : ℚ) / (image_size.2 : ℚ))
  (⌊(image_size.1 : ℚ) * scale⌋, ⌊(image_size.2 : ℚ) * scale⌋)

/-! ## Plugin state (`CountdownPlugin` attributes)

A countdown entry dict is modelled by the values its fields take under
the `.get` calls the source performs: `enabled` holds
`countdown.get('enabled', True)`, `name` holds
`countdown.get('name', 'Countdown')`, `id` and `target_date` are `none`
when the key is missing (Python `None`), and `image` holds, for each
element of `countdown.get('image', [])`, the value of
`image_info.get('path')` when the element is a dict and `none`
otherwise. -/

structure Countdown where
  id : Option String
  enabled : Bool
  name : String
  target_date : Option String
  image : List (Option String)
  display_order : Int
deriving DecidableEq, Repr

/-- Composited images are opaque tokens standing for the PIL buffers
produced by `_load_and_scale_image`. -/
abbrev ImgTok := Nat

/-- The mutable attributes of `CountdownPlugin` that the verified claims
concern.  `cached_images` is keyed by `countdown.get('id')`, which may be
Python `None` (the dict accepts `None` as a key); `countdown_values` is
keyed by the non-empty string ids inserted by `update`. -/
structure PluginState where
  countdowns : List Countdown
  show_expired : Bool
  current_countdown_index : Nat
  last_rotation_time : ℚ
  display_duration : ℚ
  cached_images : List (Option String × ImgTok)
  countdown_values : List (String × CountdownResult)
deriving DecidableEq, Repr

/-- Dict assignment `m[k] = v` on an association list. -/
def setVal (m : List (String × CountdownResult)) (k : String)
    (v : CountdownResult) : List (String × CountdownResult) :=
  (k, v) :: m.filter (fun p => p.1 != k)

/-- Dict assignment for the image cache. -/
def setImg (m : List (Option String × ImgTok)) (k : Option String)
    (v : ImgTok) : List (Option String × ImgTok) :=
  (k, v) :: m.filter (fun p => p.1 != k)

/-- `self.countdown_values.get(countdown_id, ...)` for a possibly-missing
id: `None` is never a key of `countdown_values`. -/
def lookupVal (m : List (String × CountdownResult)) :
    Option String → Option CountdownResult
  | some k => m.lookup k
  | none => none

/-- The expiry test of lines 344-348: an entry counts as expired only
when its id is a key of `countdown_values` and the stored result has
`is_expired` true. -/
def entryExpired (values : List (String × CountdownResult))
    (c : Countdown) : Bool :=
  match c.id with
  | some i =>
    match values.lookup i with
    | some r => r.is_expired
    | none => false
  | none => false

/-- `_get_enabled_countdowns` (lines 336-352). -/
def getEnabledCountdowns (st : PluginState) : List Countdown :=
  st.countdowns.filter
    (fun c => c.enabled && !(entryExpired st.countdown_values c && !st.show_expired))

/-- `_get_current_countdown` (lines 354-365): returns the possibly
index-clamped state together with the selected entry. -/
def getCurrentCountdown (st : PluginState) : PluginState × Option Countdown :=
  if (getEnabledCountdowns st).isEmpty then (st, none)
  else if st.current_countdown_index ≥ (getEnabledCountdowns st).length then
    ({ st with current_countdown_index := 0 }, (getEnabledCountdowns st)[0]?)
  else (st, (getEnabledCountdowns st)[st.current_countdown_index]?)

/-- `_rotate_to_next_countdown` (lines 367-376), with `time.time()`
passed explicitly. -/
def rotate_to_next (st : PluginState) (now : ℚ) : PluginState :=
  if (getEnabledCountdowns st).isEmpty then st
  else
    { st with
      current_countdown_index :=
        (st.current_countdown_index + 1) % (getEnabledCountdowns st).length
      last_rotation_time := now }

/-- `is_cycle_complete` (lines 630-640): `elapsed >= duration` triggers a
rotation and reports a completed cycle. -/
def is_cycle_complete (st : PluginState) (now : ℚ) : PluginState × Bool :=
  if st.display_duration ≤ now - st.last_rotation_time then
    (rotate_to_next st now, true)
  else (st, false)

/-- `reset_cycle_state` (lines 642-644). -/
def reset_cycle_state (st : PluginState) (now : ℚ) : PluginState :=
  { st with last_rotation_time := now }

/-- The loop body of `update` (lines 385-390): an entry contributes a
recalculated value only when both `countdown.get('id')` and
`countdown.get('target_date')` are truthy (present and non-empty). -/
def updateLoop (today : PDate) :
    List Countdown → List (String × CountdownResult) →
      List (String × CountdownResult)
  | [], m => m
  | c :: rest, m =>
    match c.id, c.target_date with
    | some i, some t =>
      if i = "" ∨ t = "" then updateLoop today rest m
      else updateLoop today rest (setVal m i (calculate_time_remaining t today))
    | _, _ => updateLoop today rest m

/-- `update` (lines 378-395), with `date.today()` passed explicitly. -/
def update (st : PluginState) (today : PDate) : PluginState :=
  { st with countdown_values := updateLoop today st.countdowns st.countdown_values }

/-- Stable ascending sort by `display_order` (Python `list.sort` with
`key=lambda x: x.get('display_order', 0)`; insertion sort is likewise
stable). -/
def sortByOrder (l : List Countdown) : List Countdown :=
  l.insertionSort (fun a b => a.display_order ≤ b.display_order)

/-- State produced by `__init__` (lines 52-95) for a given configuration:
caches start empty, the rotation index starts at 0 and the rotation clock
starts at the construction time `t0`. -/
def initState (countdowns : List Countdown) (show_expired : Bool)
    (display_duration : ℚ) (t0 : ℚ) : PluginState :=
  { countdowns := sortByOrder countdowns
    show_expired := show_expired
    current_countdown_index := 0
    last_rotation_time := t0
    display_duration := display_duration
    cached_images := []
    countdown_values := [] }

/-- `on_config_change` (lines 683-714): replaces and re-sorts the entry
list, clears the image cache and resets the index exactly when the entry
count differs, updates the configured display duration (via
`super().on_config_change` replacing `self.config`), and finally calls
`update`.  `show_expired` is read only in `__init__` and therefore stays
unchanged. -/
def on_config_change (st : PluginState) (newCountdowns : List Countdown)
    (newDuration : ℚ) (today : PDate) : PluginState :=
  update
    (if (sortByOrder newCountdowns).length ≠ st.countdowns.length then
      { st with
        countdowns := sortByOrder newCountdowns
        display_duration := newDuration
        cached_images := []
        current_countdown_index := 0 }
    else
      { st with
        countdowns := sortByOrder newCountdowns
        display_duration := newDuration })
    today

/-- `cleanup` (lines 727-731). -/
def cleanup (st : PluginState) : PluginState :=
  { st with cached_images := [], countdown_values := [] }

/-! ## Rendering (`display`, lines 397-534)

External effects are abstracted: `loadImage` gives the outcome of
`_load_and_scale_image` (which catches its own internal errors and
returns `None` on any failure), and `fault` models an exception raised by
one of the host calls inside `display`'s `try` block — `early` before the
image-cache block of lines 437-444, `late` after it.  The `except` clause
at line 532 catches every such exception and falls back to
`_display_error`; `_display_no_countdowns` and `_display_error` are
themselves wrapped in their own `try`/`except` and always return. -/

inductive Fault where
  | none
  | early
  | late
deriving DecidableEq, Repr

structure RenderEnv where
  loadImage : String → Option ImgTok
  fault : Fault

/-- The frame handed to the display manager: the "No Active /
Countdowns" fallback, the "Countdown / Error" fallback, or a normal frame
carrying the pasted cached image (if any), the entry name, the value
text, the today-highlight flag and whether the display was cleared
first. -/
inductive Frame where
  | noCountdowns
  | error
  | rendered (img : Option ImgTok) (name : String) (valueText : String)
      (isTodayHighlight : Bool) (forceCleared : Bool)
deriving DecidableEq, Repr

/-- Lines 428-435: the image path is used only when `image` is a
non-empty list whose first element is a dict with a truthy `path`. -/
def firstImagePath (c : Countdown) : Option String :=
  match c.image with
  | some p :: _ => if p = "" then none else some p
  | _ => none

/-- The image-cache block of lines 437-444: on a cache miss the image is
loaded and, when loading succeeds, stored under the current entry's id
(which may be `None`). -/
def cacheStep (st : PluginState) (env : RenderEnv) (c : Countdown) :
    PluginState :=
  match firstImagePath c with
  | none => st
  | some p =>
    match st.cached_images.lookup c.id with
    | some _ => st
    | none =>
      match env.loadImage p with
      | some img => { st with cached_images := setImg st.cached_images c.id img }
      | none => st

/-- `display(force_clear)`: returns the successor state and the frame
presented.  The function is total — the modelled method never raises.
The normal frame carries a pasted image only when the current entry has
a configured image path (the `if countdown_image_list:` /
`if image_path:` guards of lines 431-444); without one, nothing is
pasted even if the cache holds the entry's id. -/
def display (st : PluginState) (env : RenderEnv) (force_clear : Bool) :
    PluginState × Frame :=
  match getCurrentCountdown st with
  | (st1, none) => (st1, Frame.noCountdowns)
  | (st1, some c) =>
    match env.fault with
    | Fault.early => (st1, Frame.error)
    | Fault.late => (cacheStep st1 env c, Frame.error)
    | Fault.none =>
      (cacheStep st1 env c,
        Frame.rendered
          (match firstImagePath c with
           | some _ => (cacheStep st1 env c).cached_images.lookup c.id
           | none => none)
          c.name
          (match lookupVal (cacheStep st1 env c).countdown_values c.id with
           | some r => r.text
           | none => "---")
          (match lookupVal (cacheStep st1 env c).countdown_values c.id with
           | some r => r.is_today
           | none => false)
          force_clear)

/-- Value text of a normal frame. -/
def frameValueText : Frame → Option String
  | Frame.rendered _ _ t _ _ => some t
  | _ => none

/-- Today-highlight flag of a normal frame. -/
def frameIsToday : Frame → Option Bool
  | Frame.rendered _ _ _ b _ => some b
  | _ => none

/-- Pasted image of a normal frame. -/
def frameImage : Frame → Option (Option ImgTok)
  | Frame.rendered i _ _ _ _ => some i
  | _ => none

/-! ## Public operations and the cache-key invariant (claim C6) -/

/-- One public operation of the plugin, with its external inputs. -/
inductive Op where
  | upd (today : PDate)
  | disp (env : RenderEnv) (force_clear : Bool)
  | tick (now : ℚ)
  | cfg (new : List Countdown) (newDuration : ℚ) (today : PDate)
  | clean

/-- Effect of a public operation on the plugin state. -/
def applyOp (st : PluginState) : Op → PluginState
  | Op.upd today => update st today
  | Op.disp env fc => (display st env fc).1
  | Op.tick now => (is_cycle_complete st now).1
  | Op.cfg new dur today => on_config_change st new dur today
  | Op.clean => cleanup st

/-- Every key of the composited-image cache is the id of some
currently-configured entry. -/
def cacheKeysOK (st : PluginState) : Prop :=
  ∀ k ∈ st.cached_images.map Prod.fst, k ∈ st.countdowns.map Countdown.id

/-- Safety proviso for cache-key preservation: a config change must
either change the entry count (which clears the cache) or keep every
previously-configured id. -/
def opOK (st : PluginState) : Op → Prop
  | Op.cfg new _ _ =>
    (sortByOrder new).length ≠ st.countdowns.length ∨
      ∀ i ∈ st.countdowns.map Countdown.id, i ∈ (sortByOrder new).map Countdown.id
  | _ => True

/-! ## Concrete states used by witnesses and counterexamples -/

/-- A single enabled entry without an image. -/
def cEnabled : Countdown := ⟨some "a", true, "A", some "2030-01-01", [], 0⟩

/-- An enabled entry with id `a` and image path `p` (no target date key). -/
def cImgP : Countdown := ⟨some "a", true, "A", none, [some "p"], 0⟩

/-- `cImgP` with its image source changed to path `q`. -/
def cImgQ : Countdown := ⟨some "a", true, "A", none, [some "q"], 0⟩

/-- An enabled entry with id `b` and no image. -/
def cB : Countdown := ⟨some "b", true, "B", none, [], 0⟩

/-- A state with no configured countdowns. -/
def stEmptyTick : PluginState := ⟨[], false, 0, 0, 15, [], []⟩

/-- A state with one enabled countdown and empty caches. -/
def stOneTick : PluginState := ⟨[cEnabled], false, 0, 0, 15, [], []⟩

/-- A state whose image cache already holds a composite for entry `a`. -/
def stC5 : PluginState := ⟨[cImgP], false, 0, 0, 15, [(some "a", 7)], []⟩

/-- Environment in which no image loads and no host call faults. -/
def env0 : RenderEnv := ⟨fun _ => none, Fault.none⟩

/-- Environment in which every image loads (as token 7) and no host call
faults. -/
def envLoad : RenderEnv := ⟨fun _ => some 7, Fault.none⟩

/-- Freshly constructed plugin configured with the single entry `cImgP`. -/
def stC6a : PluginState := initState [cImgP] false 15 0

/-- `stC6a` after one `display` call (which caches entry `a`'s image). -/
def stC6b : PluginState := (display stC6a envLoad false).1

/-- `stC6b` after a config change to the same-count entry list `[cB]`. -/
def stC6c : PluginState := on_config_change stC6b [cB] 15 ⟨2026, 1, 1⟩

/-- The rational `-1/2` (the Python float `-0.5`, which is exactly
representable in binary64). -/
def negHalf : ℚ := ⟨-1, 2, by decide, by decide⟩

/-! ## Helper lemmas -/

theorem getCurrent_countdowns (st : PluginState) :
    (getCurrentCountdown st).1.countdowns = st.countdowns := by
  unfold getCurrentCountdown
  split
  · rfl
  · split <;> rfl

theorem getCurrent_cached (st : PluginState) :
    (getCurrentCountdown st).1.cached_images = st.cached_images := by
  unfold getCurrentCountdown
  split
  · rfl
  · split <;> rfl

theorem getCurrent_values (st : PluginState) :
    (getCurrentCountdown st).1.countdown_values = st.countdown_values := by
  unfold getCurrentCountdown
  split
  · rfl
  · split <;> rfl

theorem getCurrent_some_mem {st st1 : PluginState} {c : Countdown}
    (h : getCurrentCountdown st = (st1, some c)) : c ∈ st.countdowns := by
  unfold getCurrentCountdown at h
  split at h
  · exact absurd (congrArg Prod.snd h) (by simp)
  · split at h
    · have h0 : (getEnabledCountdowns st)[0]? = some c := by
        have := congrArg Prod.snd h
        simpa using this
      exact List.mem_of_mem_filter (List.getElem?_mem h0)
    · have h0 : (getEnabledCountdowns st)[st.current_countdown_index]? = some c := by
        have := congrArg Prod.snd h
        simpa using this
      exact List.mem_of_mem_filter (List.getElem?_mem h0)

theorem getCurrent_some_of_ne {st : PluginState}
    (h : getEnabledCountdowns st ≠ []) :
    ∃ st1 c, getCurrentCountdown st = (st1, some c) := by
  unfold getCurrentCountdown
  have hne : (getEnabledCountdowns st).isEmpty = false := by
    cases hL : getEnabledCountdowns st with
    | nil => exact absurd hL h
    | cons a l => rfl
  rw [hne]
  simp only [Bool.false_eq_true, if_false]
  have hlen : 0 < (getEnabledCountdowns st).length := by
    cases hL : getEnabledCountdowns st with
    | nil => exact absurd hL h
    | cons a l => simp
  split
  · exact ⟨_, (getEnabledCountdowns st)[0], by rw [List.getElem?_eq_getElem hlen]⟩
  · rename_i hidx
    have hlt : st.current_countdown_index < (getEnabledCountdowns st).length := by
      omega
    exact ⟨_, (getEnabledCountdowns st)[st.current_countdown_index],
      by rw [List.getElem?_eq_getElem hlt]⟩

theorem cacheStep_countdowns (st : PluginState) (env : RenderEnv) (c : Countdown) :
    (cacheStep st env c).countdowns = st.countdowns := by
  unfold cacheStep
  split
  · rfl
  · split
    · rfl
    · split <;> rfl

theorem cacheStep_values (st : PluginState) (env : RenderEnv) (c : Countdown) :
    (cacheStep st env c).countdown_values = st.countdown_values := by
  unfold cacheStep
  split
  · rfl
  · split
    · rfl
    · split <;> rfl

theorem cacheStep_hit {st : PluginState} {env : RenderEnv} {c : Countdown}
    {img : ImgTok} (h : st.cached_images.lookup c.id = some img) :
    cacheStep st env c = st := by
  unfold cacheStep
  split
  · rfl
  · rw [h]

theorem cacheStep_keys {st : PluginState} {env : RenderEnv} {c : Countdown} :
    ∀ k ∈ (cacheStep st env c).cached_images.map Prod.fst,
      k = c.id ∨ k ∈ st.cached_images.map Prod.fst := by
  intro k hk
  unfold cacheStep at hk
  split at hk
  · exact Or.inr hk
  · split at hk
    · exact Or.inr hk
    · split at hk
      · simp only [setImg, List.map_cons, List.mem_cons] at hk
        rcases hk with hk | hk
        · exact Or.inl hk
        · right
          obtain ⟨p, hp, hpk⟩ := List.mem_map.mp hk
          exact List.mem_map.mpr ⟨p, List.mem_of_mem_filter hp, hpk⟩
      · exact Or.inr hk

theorem tick_countdowns (st : PluginState) (now : ℚ) :
    (is_cycle_complete st now).1.countdowns = st.countdowns := by
  unfold is_cycle_complete rotate_to_next
  split
  · split <;> rfl
  · rfl

theorem tick_cached (st : PluginState) (now : ℚ) :
    (is_cycle_complete st now).1.cached_images = st.cached_images := by
  unfold is_cycle_complete rotate_to_next
  split
  · split <;> rfl
  · rfl

theorem display_countdowns (st : PluginState) (env : RenderEnv) (fc : Bool) :
    (display st env fc).1.countdowns = st.countdowns := by
  unfold display
  cases hcur : getCurrentCountdown st with
  | mk st1 oc =>
    have h1 : st1.countdowns = st.countdowns := by
      have := getCurrent_countdowns st
      rw [hcur] at this
      exact this
    cases oc with
    | none => exact h1
    | some c =>
      cases env.fault <;> simp only [] <;>
        first
        | (rw [cacheStep_countdowns]; exact h1)
        | exact h1

theorem display_cache_keys (st : PluginState) (env : RenderEnv) (fc : Bool) :
    ∀ k ∈ (display st env fc).1.cached_images.map Prod.fst,
      k ∈ st.cached_images.map Prod.fst ∨ k ∈ st.countdowns.map Countdown.id := by
  intro k hk
  unfold display at hk
  cases hcur : getCurrentCountdown st with
  | mk st1 oc =>
    rw [hcur] at hk
    have h1 : st1.cached_images = st.cached_images := by
      have := getCurrent_cached st
      rw [hcur] at this
      exact this
    cases oc with
    | none => exact Or.inl (h1 ▸ hk)
    | some c =>
      have hmem : c ∈ st.countdowns := getCurrent_some_mem hcur
      have hid : c.id ∈ st.countdowns.map Countdown.id :=
        List.mem_map.mpr ⟨c, hmem, rfl⟩
      cases henv : env.fault <;> rw [henv] at hk <;> simp only [] at hk
      · rcases cacheStep_keys k hk with h | h
        · exact Or.inr (h ▸ hid)
        · exact Or.inl (h1 ▸ h)
      · exact Or.inl (h1 ▸ hk)
      · rcases cacheStep_keys k hk with h | h
        · exact Or.inr (h ▸ hid)
        · exact Or.inl (h1 ▸ h)

/-! ## Claim theorems -/

/-- Claim C1: for valid calendar dates `d` (target) and `t` (today) with
whole-day difference `delta = d - t`, the countdown calculation returns:
for `delta < 0` an expired result with `days = |delta|` and label
`|delta|` followed by `d ago`; for `delta = 0` the `TODAY!` result with
`is_today` set; for `delta = 1` the `1 Day` result; and for `delta > 1`
the `delta Days` result with `days = delta`; the two flags are false in
the non-expired, non-today cases. -/
theorem countdown_c1 (d t : PDate) (delta : Int)
    (hd : validDate d = true) (ht : validDate t = true)
    (hdelta : delta = (toOrdinal d : Int) - (toOrdinal t : Int)) :
    (delta < 0 →
      calcFromDelta delta =
        ⟨delta.natAbs, 0, 0, true, false, toString delta.natAbs ++ "d ago"⟩) ∧
    (delta = 0 →
      calcFromDelta delta = ⟨0, 0, 0, false, true, "TODAY!"⟩) ∧
    (delta = 1 →
      calcFromDelta delta = ⟨1, 0, 0, false, false, "1 Day"⟩) ∧
    (1 < delta →
      calcFromDelta delta =
        ⟨delta.toNat, 0, 0, false, false, toString delta ++ " Days"⟩) := by
  refine ⟨?_, ?_, ?_, ?_⟩ <;> intro h
  · rw [calcFromDelta, if_pos h]
  · have h0 : ¬ delta < 0 := by omega
    rw [calcFromDelta, if_neg h0, if_pos h]
  · have h0 : ¬ delta < 0 := by omega
    have h1 : ¬ delta = 0 := by omega
    rw [calcFromDelta, if_neg h0, if_neg h1, if_pos h]
  · have h0 : ¬ delta < 0 := by omega
    have h1 : ¬ delta = 0 := by omega
    have h2 : ¬ delta = 1 := by omega
    rw [calcFromDelta, if_neg h0, if_neg h1, if_neg h2]

/-- Witness for C1 at the concrete dates 2024-05-03 and 2024-05-01
(`delta = 2`). -/
theorem countdown_c1_witness :
    validDate ⟨2024, 5, 3⟩ = true ∧ validDate ⟨2024, 5, 1⟩ = true ∧
    (2 : Int) = (toOrdinal ⟨2024, 5, 3⟩ : Int) - (toOrdinal ⟨2024, 5, 1⟩ : Int) ∧
    calcFromDelta 2 =
      ⟨(2 : Int).toNat, 0, 0, false, false, toString (2 : Int) ++ " Days"⟩ :=
  ⟨by decide, by decide, by decide,
    (countdown_c1 ⟨2024, 5, 3⟩ ⟨2024, 5, 1⟩ 2 (by decide) (by decide)
      (by decide)).2.2.2 (by decide)⟩

/-- Claim C2: for every plugin state, an entry is in the filtered list
returned by `_get_enabled_countdowns` iff it is a configured entry whose
`enabled` flag is true and which is not expired (per the per-entry result
cache) or `show_expired` is set; moreover the filtered list is a
subsequence of the full entry list, so a disabled entry never appears. -/
theorem countdown_c2 (st : PluginState) :
    (∀ c : Countdown,
      c ∈ getEnabledCountdowns st ↔
        c ∈ st.countdowns ∧ c.enabled = true ∧
          (entryExpired st.countdown_values c = false ∨ st.show_expired = true)) ∧
    List.Sublist (getEnabledCountdowns st) st.countdowns := by
  constructor
  · intro c
    rw [getEnabledCountdowns, List.mem_filter]
    have hb : ∀ a b s : Bool,
        ((a && !(b && !s)) = true) ↔ (a = true ∧ (b = false ∨ s = true)) := by
      decide
    rw [hb]
  · exact List.filter_sublist st.countdowns

/-- Claim C9 (amended): every input string rejected by Python's
`%Y-%m-%d` parsing — which requires a four-digit year but accepts one- or
two-digit months and days — makes the countdown calculation fail locally
and return exactly the default `Error` result, without raising. -/
theorem countdown_c9 (s : String) (today : PDate)
    (h : parseDateStr s = none) :
    calculate_time_remaining s today = errorResult := by
  unfold calculate_time_remaining
  rw [h]

/-- Witness for C9: the string `garbage` does not parse, and the
calculation returns the `Error` default. -/
theorem countdown_c9_witness :
    parseDateStr "garbage" = none ∧
    calculate_time_remaining "garbage" ⟨2024, 1, 1⟩ = errorResult :=
  ⟨by decide, countdown_c9 "garbage" ⟨2024, 1, 1⟩ (by decide)⟩

/-- Counterexample for C9 as stated: `2024-1-5` is not in zero-padded
`YYYY-MM-DD` shape, yet `strptime('%Y-%m-%d')` accepts it (its month and
day groups match bare `[1-9]`), so the calculation returns a normal
`1 Day` result instead of the claimed `Error` default. -/
theorem countdown_c9_cex :
    calculate_time_remaining "2024-1-5" ⟨2024, 1, 4⟩ =
      ⟨1, 0, 0, false, false, "1 Day"⟩ ∧
    calculate_time_remaining "2024-1-5" ⟨2024, 1, 4⟩ ≠ errorResult := by
  decide

/-- Claim C8: for positive source dimensions and positive target box,
`_calculate_fit_size` returns both dimensions scaled by
`min(target_w/img_w, target_h/img_h)` and floored; the result fits inside
the target box and at least one dimension exactly reaches the target
(width equals `w` or height equals `h`). -/
theorem countdown_c8 (iw ih w h : Nat)
    (hiw : 0 < iw) (hih : 0 < ih) (hw : 0 < w) (hh : 0 < h) :
    calculate_fit_size (iw, ih) (w, h) =
      (⌊(iw : ℚ) * min ((w : ℚ) / (iw : ℚ)) ((h : ℚ) / (ih : ℚ))⌋,
       ⌊(ih : ℚ) * min ((w : ℚ) / (iw : ℚ)) ((h : ℚ) / (ih : ℚ))⌋) ∧
    (calculate_fit_size (iw, ih) (w, h)).1 ≤ (w : Int) ∧
    (calculate_fit_size (iw, ih) (w, h)).2 ≤ (h : Int) ∧
    ((calculate_fit_size (iw, ih) (w, h)).1 = (w : Int) ∨
     (calculate_fit_size (iw, ih) (w, h)).2 = (h : Int)) := by
  have hiwQ : (0 : ℚ) < (iw : ℚ) := by exact_mod_cast hiw
  have hihQ : (0 : ℚ) < (ih : ℚ) := by exact_mod_cast hih
  have hwQ : (0 : ℚ) ≤ (w : ℚ) := by positivity
  have hhQ : (0 : ℚ) ≤ (h : ℚ) := by positivity
  have hiw0 : ((iw : ℚ)) ≠ 0 := ne_of_gt hiwQ
  have hih0 : ((ih : ℚ)) ≠ 0 := ne_of_gt hihQ
  have hw_id : (iw : ℚ) * ((w : ℚ) / (iw : ℚ)) = (w : ℚ) :=
    mul_div_cancel₀ (w : ℚ) hiw0
  have hh_id : (ih : ℚ) * ((h : ℚ) / (ih : ℚ)) = (h : ℚ) :=
    mul_div_cancel₀ (h : ℚ) hih0
  have hfst : (calculate_fit_size (iw, ih) (w, h)).1 =
      ⌊(iw : ℚ) * min ((w : ℚ) / (iw : ℚ)) ((h : ℚ) / (ih : ℚ))⌋ := rfl
  have hsnd : (calculate_fit_size (iw, ih) (w, h)).2 =
      ⌊(ih : ℚ) * min ((w : ℚ) / (iw : ℚ)) ((h : ℚ) / (ih : ℚ))⌋ := rfl
  have hle1 : (iw : ℚ) * min ((w : ℚ) / (iw : ℚ)) ((h : ℚ) / (ih : ℚ)) ≤ (w : ℚ) := by
    calc (iw : ℚ) * min ((w : ℚ) / (iw : ℚ)) ((h : ℚ) / (ih : ℚ))
        ≤ (iw : ℚ) * ((w : ℚ) / (iw : ℚ)) :=
          mul_le_mul_of_nonneg_left (min_le_left _ _) (le_of_lt hiwQ)
      _ = (w : ℚ) := hw_id
  have hle2 : (ih : ℚ) * min ((w : ℚ) / (iw : ℚ)) ((h : ℚ) / (ih : ℚ)) ≤ (h : ℚ) := by
    calc (ih : ℚ) * min ((w : ℚ) / (iw : ℚ)) ((h : ℚ) / (ih : ℚ))
        ≤ (ih : ℚ) * ((h : ℚ) / (ih : ℚ)) :=
          mul_le_mul_of_nonneg_left (min_le_right _ _) (le_of_lt hihQ)
      _ = (h : ℚ) := hh_id
  refine ⟨rfl, ?_, ?_, ?_⟩
  · rw [hfst]
    calc ⌊(iw : ℚ) * min ((w : ℚ) / (iw : ℚ)) ((h : ℚ) / (ih : ℚ))⌋
        ≤ ⌊(w : ℚ)⌋ := Int.floor_le_floor hle1
      _ = (w : Int) := Int.floor_natCast w
  · rw [hsnd]
    calc ⌊(ih : ℚ) * min ((w : ℚ) / (iw : ℚ)) ((h : ℚ) / (ih : ℚ))⌋
        ≤ ⌊(h : ℚ)⌋ := Int.floor_le_floor hle2
      _ = (h : Int) := Int.floor_natCast h
  · rcases min_cases ((w : ℚ) / (iw : ℚ)) ((h : ℚ) / (ih : ℚ)) with
      ⟨heq, _⟩ | ⟨heq, _⟩
    · left
      rw [hfst, heq, hw_id, Int.floor_natCast]
    · right
      rw [hsnd, heq, hh_id, Int.floor_natCast]

/-- Witness for C8 at a 10×5 source in an 8×8 box (scale 4/5; result
touches the width edge). -/
theorem countdown_c8_witness :
    (0 < 10 ∧ 0 < 5 ∧ 0 < 8) ∧
    ((calculate_fit_size (10, 5) (8, 8)).1 ≤ (8 : Int) ∧
     (calculate_fit_size (10, 5) (8, 8)).2 ≤ (8 : Int) ∧
     ((calculate_fit_size (10, 5) (8, 8)).1 = (8 : Int) ∨
      (calculate_fit_size (10, 5) (8, 8)).2 = (8 : Int))) :=
  ⟨⟨by decide, by decide, by decide⟩,
    (countdown_c8 10 5 8 8 (by decide) (by decide) (by decide) (by decide)).2⟩

/-- Counterexample for C3 as stated: in a state with no countdowns
(`display_duration = 15`, `last_rotation_time = 0`) a tick at `now = 20`
has `elapsed ≥ duration` and returns true, yet `last_rotation_time` is
*not* set to `now` — `_rotate_to_next_countdown` returns early on an
empty filtered list — contradicting the claimed unconditional update. -/
theorem countdown_c3_cex :
    stEmptyTick.display_duration ≤ 20 - stEmptyTick.last_rotation_time ∧
    (is_cycle_complete stEmptyTick 20).2 = true ∧
    (is_cycle_complete stEmptyTick 20).1.last_rotation_time ≠ 20 := by
  have hcond : stEmptyTick.display_duration ≤ 20 - stEmptyTick.last_rotation_time := by
    norm_num [stEmptyTick]
  have hE : (getEnabledCountdowns stEmptyTick).isEmpty = true := by decide
  refine ⟨hcond, ?_, ?_⟩
  · rw [is_cycle_complete, if_pos hcond]
  · rw [is_cycle_complete, if_pos hcond]
    rw [rotate_to_next, if_pos hE]
    norm_num [stEmptyTick]

/-- Claim C3 (amended): a tick with `elapsed ≥ display_duration` returns
true; if the filtered list recomputed at tick time is non-empty the
active index becomes `(index+1) mod len(filtered)` and
`last_rotation_time` becomes `now`, while on an empty filtered list the
state is left unchanged (the rotate helper returns early).  A tick with
`elapsed < display_duration` changes nothing and returns false. -/
theorem countdown_c3_amended (st : PluginState) (now : ℚ) :
    (st.display_duration ≤ now - st.last_rotation_time →
      ((getEnabledCountdowns st = [] → is_cycle_complete st now = (st, true)) ∧
       (getEnabledCountdowns st ≠ [] →
         is_cycle_complete st now =
           ({ st with
               current_countdown_index :=
                 (st.current_countdown_index + 1) % (getEnabledCountdowns st).length
               last_rotation_time := now }, true)))) ∧
    (¬ st.display_duration ≤ now - st.last_rotation_time →
      is_cycle_complete st now = (st, false)) := by
  constructor
  · intro hcond
    constructor
    · intro hE
      rw [is_cycle_complete, if_pos hcond, rotate_to_next]
      rw [if_pos (by rw [hE]; rfl)]
    · intro hNE
      have hne : (getEnabledCountdowns st).isEmpty = false := by
        cases hL : getEnabledCountdowns st with
        | nil => exact absurd hL hNE
        | cons a l => rfl
      rw [is_cycle_complete, if_pos hcond, rotate_to_next]
      rw [if_neg (by rw [hne]; exact Bool.false_ne_true)]
  · intro hcond
    rw [is_cycle_complete, if_neg hcond]

/-- Witness for C3 at a one-entry state with `display_duration = 15`,
`last_rotation_time = 0` and a tick at `now = 20`. -/
theorem countdown_c3_witness :
    stOneTick.display_duration ≤ 20 - stOneTick.last_rotation_time ∧
    getEnabledCountdowns stOneTick ≠ [] ∧
    is_cycle_complete stOneTick 20 =
      ({ stOneTick with
          current_countdown_index :=
            (stOneTick.current_countdown_index + 1) %
              (getEnabledCountdowns stOneTick).length
          last_rotation_time := 20 }, true) :=
  ⟨by norm_num [stOneTick], by decide,
    ((countdown_c3_amended stOneTick 20).1 (by norm_num [stOneTick])).2
      (by decide)⟩

theorem convRange_eq_spec (e : PyElem) : convRange e = elemConvSpec e := by
  cases e with
  | int n => simp [convRange, convElem, elemConvSpec]
  | float f =>
    cases f <;> simp [convRange, convElem, intOfPyF, elemConvSpec]
  | str s =>
    cases hp : pyFloatOfString s with
    | none => simp [convRange, convElem, hp, elemConvSpec]
    | some f =>
      cases f <;> simp [convRange, convElem, hp, intOfPyF, elemConvSpec]
  | other => rfl

/-- Counterexample for C7 as stated: on input `[-0.5, 0.0, 0.0]` with
default `(9,9,9)` the claim predicts the default (floor maps `-0.5` to
`-1`, outside `[0,255]`), but Python's `int()` truncates toward zero, so
the code accepts the triple and returns `(0,0,0)`. -/
theorem countdown_c7_cex :
    parse_color
      (PyVal.seq [PyElem.float (PyF.finite negHalf), PyElem.float (PyF.finite 0),
        PyElem.float (PyF.finite 0)]) (9, 9, 9) = ColorOut.ok (0, 0, 0) ∧
    ⌊negHalf⌋ = -1 ∧
    ColorOut.ok ((0 : Int), 0, 0) ≠ ColorOut.ok (9, 9, 9) := by
  decide

/-- Claim C7 (amended): `_parse_color` behaves as follows — anything
other than a 3-element list/tuple returns the supplied default; a
3-element sequence has each element converted independently (integers
unchanged, floats and numeric strings truncated toward zero) and checked
against `[0,255]`; if all three convert in range the converted triple is
returned, otherwise the first failing element decides: an infinite float
or a string denoting an infinity raises an uncaught `OverflowError`,
while every other failure returns the default. -/
theorem countdown_c7_amended (v : PyVal) (d : Int × Int × Int) :
    parse_color v d = specParseColor v d := by
  cases v with
  | nonseq => rfl
  | seq xs =>
    match xs with
    | [] => rfl
    | [x] => rfl
    | [x, y] => rfl
    | x :: y :: z :: w :: rest => rfl
    | [x, y, z] =>
      have ex := convRange_eq_spec x
      have ey := convRange_eq_spec y
      have ez := convRange_eq_spec z
      cases hx : elemConvSpec x <;> cases hy : elemConvSpec y <;>
        cases hz : elemConvSpec z <;>
        simp [parse_color, specParseColor, ex.trans hx, ey.trans hy, ez.trans hz,
          hx, hy, hz]

/-- Claim C4: `display(force_clear)` always returns normally (the model
is a total function); when the filtered list is empty it presents the
"No Active / Countdowns" frame, and any fault raised during frame
assembly is caught and degrades to the "Countdown / Error" fallback
frame. -/
theorem countdown_c4 (st : PluginState) (env : RenderEnv) (fc : Bool) :
    (getEnabledCountdowns st = [] →
      (display st env fc).2 = Frame.noCountdowns) ∧
    (getEnabledCountdowns st ≠ [] → env.fault ≠ Fault.none →
      (display st env fc).2 = Frame.error) := by
  constructor
  · intro hE
    have hcur : getCurrentCountdown st = (st, none) := by
      rw [getCurrentCountdown, if_pos (by rw [hE]; rfl)]
    unfold display
    rw [hcur]
  · intro hNE hf
    obtain ⟨st1, c, hcur⟩ := getCurrent_some_of_ne hNE
    unfold display
    rw [hcur]
    cases henv : env.fault with
    | none => exact absurd henv hf
    | early => rfl
    | late => rfl

/-- Witness for C4 at the empty-configuration state. -/
theorem countdown_c4_witness :
    getEnabledCountdowns stEmptyTick = [] ∧
    (display stEmptyTick env0 false).2 = Frame.noCountdowns :=
  ⟨by decide, (countdown_c4 stEmptyTick env0 false).1 (by decide)⟩

/-- Claim C10: when the active entry's id has no entry in the per-entry
result cache (e.g. `display` before any `update`, or an entry `update`
skipped), the rendered value text is the placeholder and the today
highlight is off — a normal frame, not an error frame. -/
theorem countdown_c10 (st : PluginState) (env : RenderEnv) (fc : Bool)
    (st1 : PluginState) (c : Countdown)
    (hcur : getCurrentCountdown st = (st1, some c))
    (hf : env.fault = Fault.none)
    (hv : lookupVal st.countdown_values c.id = none) :
    frameValueText (display st env fc).2 = some "---" ∧
    frameIsToday (display st env fc).2 = some false := by
  have h1 : st1.countdown_values = st.countdown_values := by
    have := getCurrent_values st
    rw [hcur] at this
    exact this
  have h2 : lookupVal (cacheStep st1 env c).countdown_values c.id = none := by
    rw [cacheStep_values, h1]
    exact hv
  unfold display
  rw [hcur, hf]
  simp [frameValueText, frameIsToday, h2]

/-- Witness for C10: one enabled entry, empty result cache, no faults. -/
theorem countdown_c10_witness :
    getCurrentCountdown stOneTick = (stOneTick, some cEnabled) ∧
    env0.fault = Fault.none ∧
    lookupVal stOneTick.countdown_values cEnabled.id = none ∧
    (frameValueText (display stOneTick env0 false).2 = some "---" ∧
     frameIsToday (display stOneTick env0 false).2 = some false) :=
  ⟨by decide, rfl, by decide,
    countdown_c10 stOneTick env0 false stOneTick cEnabled (by decide) rfl
      (by decide)⟩

/-- Counterexample for C5 as stated: changing only an entry's image
source (path `p` to path `q`, same entry count) leaves the composited
cache intact — `on_config_change` clears it only when the entry count
differs — contradicting the claimed invalidation on image-source
change. -/
theorem countdown_c5_cex :
    cImgP.image ≠ cImgQ.image ∧
    (on_config_change stC5 [cImgQ] 15 ⟨2026, 1, 1⟩).cached_images =
      [(some "a", 7)] ∧
    ([(some "a", 7)] : List (Option String × ImgTok)) ≠ [] := by
  decide

/-- Claim C5 (amended): on a configuration change the composited-image
cache is cleared exactly when the entry count differs; a same-count
change — including one that only alters an entry's image source — leaves
every cached image in place.  On a cache hit `display` never recomputes
(the cache is left unchanged), and for a current entry that has a
configured image source the pasted image is exactly the cached token
(reused verbatim; an entry without an image source pastes nothing, per
the `if image_path:` guard).  Rotation ticks never touch the cache. -/
theorem countdown_c5_amended (st : PluginState) (new : List Countdown)
    (dur : ℚ) (today : PDate) (env : RenderEnv) (fc : Bool)
    (st1 : PluginState) (c : Countdown) (img : ImgTok) (p : String)
    (now : ℚ) :
    ((sortByOrder new).length ≠ st.countdowns.length →
      (on_config_change st new dur today).cached_images = []) ∧
    ((sortByOrder new).length = st.countdowns.length →
      (on_config_change st new dur today).cached_images = st.cached_images) ∧
    (getCurrentCountdown st = (st1, some c) →
      st.cached_images.lookup c.id = some img →
      (display st env fc).1.cached_images = st.cached_images ∧
      (firstImagePath c = some p → env.fault = Fault.none →
        frameImage (display st env fc).2 = some (some img))) ∧
    (is_cycle_complete st now).1.cached_images = st.cached_images := by
  refine ⟨?_, ?_, ?_, tick_cached st now⟩
  · intro hlen
    simp only [on_config_change, update]
    rw [if_pos hlen]
  · intro hlen
    simp only [on_config_change, update]
    rw [if_neg (fun hne => hne hlen)]
  · intro hcur hlook
    have h1c : st1.cached_images = st.cached_images := by
      have := getCurrent_cached st
      rw [hcur] at this
      exact this
    have hhit : cacheStep st1 env c = st1 :=
      cacheStep_hit (by rw [h1c]; exact hlook)
    constructor
    · unfold display
      rw [hcur]
      cases henv : env.fault <;> simp only []
      · rw [hhit]
        exact h1c
      · exact h1c
      · rw [hhit]
        exact h1c
    · intro hp hf
      unfold display
      rw [hcur, hf]
      simp only [frameImage, hp, hhit]
      rw [h1c, hlook]

/-- Witness for C5: a same-count config change that alters the image
source keeps the cache unchanged, and at a state whose current entry has
image path `p` and a cached composite, `display` leaves the cache intact
and pastes exactly the cached token. -/
theorem countdown_c5_witness :
    ((sortByOrder [cImgQ]).length = stC5.countdowns.length ∧
      (on_config_change stC5 [cImgQ] 15 ⟨2026, 1, 1⟩).cached_images =
        stC5.cached_images) ∧
    (getCurrentCountdown stC5 = (stC5, some cImgP) ∧
      stC5.cached_images.lookup cImgP.id = some 7 ∧
      firstImagePath cImgP = some "p" ∧
      (display stC5 env0 false).1.cached_images = stC5.cached_images ∧
      frameImage (display stC5 env0 false).2 = some (some 7)) :=
  ⟨⟨by decide,
      (countdown_c5_amended stC5 [cImgQ] 15 ⟨2026, 1, 1⟩ env0 false stC5 cImgP
        7 "p" 0).2.1 (by decide)⟩,
    by
      have h := (countdown_c5_amended stC5 [cImgQ] 15 ⟨2026, 1, 1⟩ env0 false
        stC5 cImgP 7 "p" 0).2.2.1 (by decide) (by decide)
      exact ⟨by decide, by decide, by decide, h.1, h.2 (by decide) rfl⟩⟩

/-- Counterexample for C6 as stated: starting from a fresh plugin with
entry `a` (image cached by one `display` call), an `on_config_change` to
the same-count list `[entry b]` keeps cache key `a` while the configured
identifiers become `{b}` — the cache keys are not a subset (a fortiori
not a strict subset) of the current entry identifiers. -/
theorem countdown_c6_cex :
    some "a" ∈ stC6c.cached_images.map Prod.fst ∧
    some "a" ∉ stC6c.countdowns.map Countdown.id := by
  decide

/-- Claim C6 (amended): every public operation preserves the (non-strict)
inclusion of composited-image cache keys in the configured entry
identifiers, provided a configuration change either changes the entry
count (which clears the cache) or keeps every previously-configured
identifier; `display` only ever inserts the current entry's identifier. -/
theorem countdown_c6_amended (st : PluginState) (op : Op)
    (hinv : cacheKeysOK st) (hop : opOK st op) :
    cacheKeysOK (applyOp st op) := by
  cases op with
  | upd today =>
    intro k hk
    exact hinv k hk
  | clean =>
    intro k hk
    simp [applyOp, cleanup] at hk
  | tick now =>
    intro k hk
    simp only [applyOp] at hk ⊢
    rw [tick_cached] at hk
    rw [tick_countdowns]
    exact hinv k hk
  | disp env fc =>
    intro k hk
    simp only [applyOp] at hk ⊢
    rw [display_countdowns]
    rcases display_cache_keys st env fc k hk with h | h
    · exact hinv k h
    · exact h
  | cfg new dur today =>
    intro k hk
    simp only [applyOp, on_config_change, update] at hk ⊢
    by_cases hlen : (sortByOrder new).length ≠ st.countdowns.length
    · rw [if_pos hlen] at hk
      simp at hk
    · rw [if_neg hlen] at hk ⊢
      rcases hop with hop | hsub
      · exact absurd hop hlen
      · exact hsub k (hinv k hk)

/-- Witness for C6: the invariant holds for the fresh one-entry state and
is preserved by a `display` call that populates the cache. -/
theorem countdown_c6_witness :
    cacheKeysOK stC6a ∧ opOK stC6a (Op.disp envLoad false) ∧
    cacheKeysOK (applyOp stC6a (Op.disp envLoad false)) :=
  ⟨by unfold cacheKeysOK; decide, trivial,
    countdown_c6_amended stC6a (Op.disp envLoad false)
      (by unfold cacheKeysOK; decide) trivial⟩
